import Mathlib

/-!
Shallow embedding of the Raspberry Pi 3 board support package from
`src/05_safe_globals/src/bsp/rpi3.rs`: the `QEMUOutputInner` device state,
its `fmt::Write` implementation, and the lock-guarded `QEMUOutput` handle.

Characters are modelled as their Unicode code points (`Nat`); a Rust `&str`
is modelled as its list of characters, with its byte length (`str::len`)
computed from the UTF-8 encoding width of each character.  Each volatile
store performed by the device is recorded as an `Emission` in an output
trace, in program order.  The `usize` counter arithmetic is modelled with
wrapping (release-mode) semantics at 64 bits, the word size of the
aarch64 target.
-/

/-- Number of bytes in the UTF-8 encoding of the Unicode code point `c`
(mirrors Rust `char::len_utf8`). -/
def utf8Len (c : Nat) : Nat :=
  if c < 0x80 then 1 else if c < 0x800 then 2 else if c < 0x10000 then 3 else 4

/-- A Rust `&str`, modelled as its list of characters (code points). -/
abbrev RStr := List Nat

/-- Rust `str::len`: the UTF-8 byte length of the string. -/
def strByteLen : RStr → Nat
  | [] => 0
  | c :: rest => utf8Len c + strByteLen rest

/-- Number of newline characters in a string. -/
def countNewlines : RStr → Nat
  | [] => 0
  | c :: rest => (if c = 10 then 1 else 0) + countNewlines rest

/-- Modulus of `usize` arithmetic on the aarch64 target of the BSP. -/
def USIZE_MOD : Nat := 2 ^ 64

/-- One volatile store observed on the bus: target address and stored byte. -/
structure Emission where
  addr : Nat
  byte : Nat
deriving Repr, DecidableEq

/-- The fixed MMIO address written by `QEMUOutputInner::write_char`. -/
def QEMU_OUT_ADDR : Nat := 0x3F215040

/-- The mutex-protected part of the device: `struct QEMUOutputInner`. -/
structure QEMUOutputInner where
  chars_written : Nat
deriving Repr, DecidableEq

/-- `QEMUOutputInner::new`: counter starts at zero. -/
def QEMUOutputInner.new : QEMUOutputInner := ⟨0⟩

/-- `QEMUOutputInner::write_char`: one volatile store of `c as u8` (the low
8 bits of the code point) to the fixed device address; no field changes. -/
def QEMUOutputInner.write_char (st : QEMUOutputInner) (c : Nat) :
    QEMUOutputInner × List Emission :=
  (st, [⟨QEMU_OUT_ADDR, c % 256⟩])

/-- The emission loop of `write_str`: for each character in order, a newline
is preceded by a carriage return, then the character itself is sent. -/
def writeStrEmits : QEMUOutputInner → RStr → QEMUOutputInner × List Emission
  | st, [] => (st, [])
  | st, c :: rest =>
    let r1 : QEMUOutputInner × List Emission :=
      if c = 10 then
        let ra := st.write_char 13
        let rb := ra.1.write_char c
        (rb.1, ra.2 ++ rb.2)
      else st.write_char c
    let r2 := writeStrEmits r1.1 rest
    (r2.1, r1.2 ++ r2.2)

/-- `core::fmt::Result`, with `core::fmt::Error` modelled as `Unit`. -/
abbrev FmtResult := Except Unit Unit

/-- `fmt::Write::write_str` for `QEMUOutputInner`: run the emission loop over
the characters of `s`, then add `s.len()` (the byte length) to the counter.
The `+=` on `usize` is modelled with wrapping (release-mode) semantics.
Always returns `Ok(())`. -/
def QEMUOutputInner.write_str (st : QEMUOutputInner) (s : RStr) :
    FmtResult × QEMUOutputInner × List Emission :=
  let r := writeStrEmits st s
  (Except.ok (), ⟨(r.1.chars_written + strByteLen s) % USIZE_MOD⟩, r.2)

/-- One piece of a rendered `core::fmt::Arguments`: either a fragment of text
produced by the formatting machinery, or a formatting error reported by it. -/
abbrev FmtPiece := Except Unit RStr

/-- `core::fmt::write` driving `fmt::Write::write_fmt` (external `core`
library, modelled by its contract): the rendered pieces are written in order
through `write_str`; the first error — whether reported by the formatting
machinery or by `write_str` — aborts rendering and is propagated verbatim. -/
def QEMUOutputInner.write_fmt :
    QEMUOutputInner → List FmtPiece → FmtResult × QEMUOutputInner × List Emission
  | st, [] => (Except.ok (), st, [])
  | st, Except.error e :: _ => (Except.error e, st, [])
  | st, Except.ok s :: rest =>
    let r1 := st.write_str s
    match r1.1 with
    | Except.error e => (Except.error e, r1.2.1, r1.2.2)
    | Except.ok _ =>
      let r2 := write_fmt r1.2.1 rest
      (r2.1, r2.2.1, r1.2.2 ++ r2.2.2)

/-- Modelled from the spec: `NullLock` (from `crate::arch::sync`, whose source
is not under `src/`) is the Scoped-Exclusive-Access primitive; in the
single-core boot context it is a no-op guard that runs the closure directly
with exclusive mutable access to the wrapped data. -/
structure NullLock (α : Type) where
  data : α

/-- Modelled from the spec: `NullLock::new` wraps the data. -/
def NullLock.new {α : Type} (d : α) : NullLock α := ⟨d⟩

/-- Modelled from the spec: `Mutex::lock` for `NullLock` runs the closure on
the wrapped data and returns its result together with the updated data. -/
def NullLock.lock {α β : Type} (l : NullLock α) (f : α → β × α) :
    β × NullLock α :=
  let r := f l.data
  (r.1, ⟨r.2⟩)

/-- The public handle: `struct QEMUOutput`, the lock around the inner state. -/
structure QEMUOutput where
  inner : NullLock QEMUOutputInner

/-- `QEMUOutput::new`: a const-constructible handle with counter zero. -/
def QEMUOutput.new : QEMUOutput := ⟨NullLock.new QEMUOutputInner.new⟩

/-- `interface::console::Write::write_fmt` for `QEMUOutput`: acquire the
lock, delegate to the `core::fmt::Write` implementation of the inner state,
release.  The emission trace of the critical section is returned alongside
the result and the updated handle. -/
def QEMUOutput.write_fmt (h : QEMUOutput) (args : List FmtPiece) :
    FmtResult × QEMUOutput × List Emission :=
  let r := h.inner.lock (fun i =>
    let ri := i.write_fmt args
    ((ri.1, ri.2.2), ri.2.1))
  (r.1.1, ⟨r.2⟩, r.1.2)

/-- `interface::console::Statistics::chars_written` for `QEMUOutput`: acquire
the lock, read the counter, release.  No emission is performed. -/
def QEMUOutput.chars_written (h : QEMUOutput) : Nat × QEMUOutput × List Emission :=
  let r := h.inner.lock (fun i => (i.chars_written, i))
  (r.1, ⟨r.2⟩, [])

/-- The state reached from a fresh device after a sequence of completed
string-write requests. -/
def runWrites (ws : List RStr) : QEMUOutputInner :=
  ws.foldl (fun st s => (st.write_str s).2.1) QEMUOutputInner.new

/-- Total number of source characters across a sequence of write requests. -/
def totalChars : List RStr → Nat
  | [] => 0
  | s :: rest => s.length + totalChars rest

/-- Total UTF-8 byte length across a sequence of write requests. -/
def totalBytes : List RStr → Nat
  | [] => 0
  | s :: rest => strByteLen s + totalBytes rest

/-- The byte sequence `write_str` emits for `s`: each character in order,
with a carriage return inserted immediately before each newline. -/
def emitSeq : RStr → List Emission
  | [] => []
  | c :: rest =>
    (if c = 10 then [⟨QEMU_OUT_ADDR, 13⟩, ⟨QEMU_OUT_ADDR, 10⟩]
     else [⟨QEMU_OUT_ADDR, c % 256⟩]) ++ emitSeq rest

/-! Helper lemmas shared by the claim theorems. -/

/-- The emission loop never changes the device state, and its trace is
exactly `emitSeq s`. -/
theorem writeStrEmits_eq (st : QEMUOutputInner) (s : RStr) :
    writeStrEmits st s = (st, emitSeq s) := by
  induction s generalizing st with
  | nil => rfl
  | cons c rest ih =>
    simp only [writeStrEmits, QEMUOutputInner.write_char, emitSeq]
    by_cases h : c = 10 <;> simp [h, ih]

/-- Counter update of a single `write_str`. -/
theorem write_str_counter (st : QEMUOutputInner) (s : RStr) :
    (st.write_str s).2.1 = ⟨(st.chars_written + strByteLen s) % USIZE_MOD⟩ := by
  simp [QEMUOutputInner.write_str, writeStrEmits_eq]

/-- Emission trace of a single `write_str`. -/
theorem write_str_emits (st : QEMUOutputInner) (s : RStr) :
    (st.write_str s).2.2 = emitSeq s := by
  simp [QEMUOutputInner.write_str, writeStrEmits_eq]

/-- Length of the emission trace: one emission per character plus one
inserted carriage return per newline. -/
theorem emitSeq_length (s : RStr) :
    (emitSeq s).length = s.length + countNewlines s := by
  induction s with
  | nil => rfl
  | cons c rest ih =>
    simp only [emitSeq, countNewlines, List.length_append, List.length_cons]
    by_cases h : c = 10 <;> simp [h, ih] <;> omega

/-- Every UTF-8 encoding takes at least one byte. -/
theorem utf8Len_pos (c : Nat) : 1 ≤ utf8Len c := by
  unfold utf8Len; split_ifs <;> omega

/-- A character outside the ASCII range takes at least two bytes. -/
theorem two_le_utf8Len (c : Nat) (h : 0x80 ≤ c) : 2 ≤ utf8Len c := by
  unfold utf8Len; split_ifs <;> omega

/-- Byte length dominates character count. -/
theorem length_le_strByteLen (s : RStr) : s.length ≤ strByteLen s := by
  induction s with
  | nil => simp [strByteLen]
  | cons c rest ih =>
    have := utf8Len_pos c
    simp only [strByteLen, List.length_cons]
    omega

/-- Byte length strictly dominates character count in the presence of a
character outside the ASCII range. -/
theorem length_lt_strByteLen (s : RStr) (h : ∃ c ∈ s, 0x80 ≤ c) :
    s.length < strByteLen s := by
  induction s with
  | nil => simp at h
  | cons c rest ih =>
    obtain ⟨d, hd, hge⟩ := h
    simp only [List.mem_cons] at hd
    simp only [strByteLen, List.length_cons]
    rcases hd with rfl | hd
    · have := two_le_utf8Len d hge
      have := length_le_strByteLen rest
      omega
    · have := ih ⟨d, hd, hge⟩
      have := utf8Len_pos c
      omega

/-- The result component of the inner `write_fmt` is an error exactly when
some rendered piece is a formatting error. -/
theorem write_fmt_error_iff_aux (args : List FmtPiece) :
    ∀ st : QEMUOutputInner,
      (st.write_fmt args).1 = Except.error () ↔ Except.error () ∈ args := by
  induction args with
  | nil =>
    intro st
    simp [QEMUOutputInner.write_fmt]
  | cons p rest ih =>
    intro st
    cases p with
    | error e =>
      simp [QEMUOutputInner.write_fmt]
    | ok s =>
      simp only [QEMUOutputInner.write_fmt, QEMUOutputInner.write_str]
      simp [ih, List.mem_cons]

/-- Counter value after a fold of write requests, from any in-range start. -/
theorem runWrites_from (ws : List RStr) :
    ∀ st : QEMUOutputInner, st.chars_written < USIZE_MOD →
      (ws.foldl (fun st s => (st.write_str s).2.1) st).chars_written
        = (st.chars_written + totalBytes ws) % USIZE_MOD := by
  induction ws with
  | nil =>
    intro st h
    simp [totalBytes, Nat.mod_eq_of_lt h]
  | cons s rest ih =>
    intro st h
    rw [List.foldl_cons, write_str_counter]
    rw [ih ⟨(st.chars_written + strByteLen s) % USIZE_MOD⟩
      (Nat.mod_lt _ (by norm_num [USIZE_MOD]))]
    simp only [totalBytes]
    rw [Nat.mod_add_mod, Nat.add_assoc]

/-! Claim theorems. -/

/-- Claim C1 counterexample: the invariant fails as stated. After the single
completed write of the one-character string whose character is the code
point 233 (two UTF-8 bytes), the counter is 2, not the number of source
characters, which is 1. -/
theorem chars_written_not_char_count :
    (runWrites [[233]]).chars_written ≠ totalChars [[233]] := by decide

/-- Claim C1 (amended): after any sequence of completed write requests, the
counter equals the total UTF-8 byte length of the source strings (reduced
modulo the word size), not their character count; transformation-inserted
carriage returns are still never counted. -/
theorem chars_written_eq_total_bytes (ws : List RStr) :
    (runWrites ws).chars_written = totalBytes ws % USIZE_MOD := by
  have h := runWrites_from ws QEMUOutputInner.new (by decide)
  simpa [runWrites, QEMUOutputInner.new] using h

/-- Claim C2 counterexample: for the one-character string with code point
233 (no newlines), there is no single length notion making both halves of
the claim true — the emission count is 1 while the counter increases by 2. -/
theorem write_str_no_uniform_length :
    ¬ ∃ n, ((QEMUOutputInner.new.write_str [233]).2.2).length
          = n + countNewlines [233] ∧
        (QEMUOutputInner.new.write_str [233]).2.1.chars_written
          = QEMUOutputInner.new.chars_written + n := by
  rintro ⟨n, h1, h2⟩
  have e1 : ((QEMUOutputInner.new.write_str [233]).2.2).length = 1 := by decide
  have e2 : (QEMUOutputInner.new.write_str [233]).2.1.chars_written = 2 := by
    decide
  have e3 : countNewlines [233] = 0 := by decide
  have e4 : QEMUOutputInner.new.chars_written = 0 := by decide
  rw [e1, e3] at h1
  rw [e2, e4] at h2
  omega

/-- Claim C2 (amended): a single write of `s` emits each character of `s` in
order with a carriage return immediately before each newline, so the number
of hardware emissions equals the character count of `s` plus its newline
count, while the counter increases by the UTF-8 byte length of `s` (reduced
modulo the word size) — which equals the character count only for ASCII-only
input. -/
theorem write_str_emission_spec (st : QEMUOutputInner) (s : RStr) :
    (st.write_str s).2.2 = emitSeq s ∧
    ((st.write_str s).2.2).length = s.length + countNewlines s ∧
    (st.write_str s).2.1.chars_written
      = (st.chars_written + strByteLen s) % USIZE_MOD := by
  refine ⟨write_str_emits st s, ?_, ?_⟩
  · rw [write_str_emits, emitSeq_length]
  · rw [write_str_counter]

/-- Claim C3: from a freshly constructed handle with counter 0, one
formatted write of the rendered text "hi\n" (code points 104, 105, 10)
succeeds, emits exactly the bytes 104, 105, 13, 10 to the device address in
that order, and leaves the counter at 3. -/
theorem write_hi_newline_scenario :
    (QEMUOutput.new.chars_written).1 = 0 ∧
    QEMUOutput.new.write_fmt [Except.ok [104, 105, 10]]
      = (Except.ok (), ⟨⟨⟨3⟩⟩⟩,
         [⟨QEMU_OUT_ADDR, 104⟩, ⟨QEMU_OUT_ADDR, 105⟩,
          ⟨QEMU_OUT_ADDR, 13⟩, ⟨QEMU_OUT_ADDR, 10⟩]) ∧
    ((⟨⟨⟨3⟩⟩⟩ : QEMUOutput).chars_written).1 = 3 :=
  ⟨rfl, rfl, rfl⟩

/-- Claim C4: emitting one character performs exactly one store, to the
fixed device address, of exactly one byte: the lowest 8 bits of the
character's code point.  The device state is untouched. -/
theorem write_char_single_store (st : QEMUOutputInner) (c : Nat) :
    st.write_char c = (st, [⟨QEMU_OUT_ADDR, c % 256⟩]) := rfl

/-- Claim C5 counterexample: with the counter at the maximum representable
`usize` value, writing one ASCII byte leaves the counter at 0 — the
increment wraps around instead of saturating at the maximum. -/
theorem counter_wraps_at_max :
    ((⟨USIZE_MOD - 1⟩ : QEMUOutputInner).write_str [97]).2.1.chars_written = 0 ∧
    (0 : Nat) ≠ USIZE_MOD - 1 := by
  constructor
  · decide
  · decide

/-- Claim C5 (amended): the counter is never reset and is monotonically
non-decreasing across every write as long as the increment does not
overflow the 64-bit word; at overflow it wraps modulo the word size
(release-mode Rust semantics) rather than saturating. -/
theorem counter_monotone_without_overflow (st : QEMUOutputInner) (s : RStr)
    (h : st.chars_written + strByteLen s < USIZE_MOD) :
    st.chars_written ≤ (st.write_str s).2.1.chars_written ∧
    (st.write_str s).2.1.chars_written = st.chars_written + strByteLen s := by
  rw [write_str_counter]
  simp only [Nat.mod_eq_of_lt h]
  exact ⟨Nat.le_add_right _ _, trivial⟩

/-- Witness for the amended C5 theorem at a concrete state and input. -/
theorem counter_monotone_without_overflow_witness :
    (QEMUOutputInner.mk 0).chars_written + strByteLen [97] < USIZE_MOD ∧
    ((QEMUOutputInner.mk 0).chars_written
        ≤ ((QEMUOutputInner.mk 0).write_str [97]).2.1.chars_written ∧
      ((QEMUOutputInner.mk 0).write_str [97]).2.1.chars_written
        = (QEMUOutputInner.mk 0).chars_written + strByteLen [97]) :=
  ⟨by decide, counter_monotone_without_overflow ⟨0⟩ [97] (by decide)⟩

/-- Claim C6: a formatted write fails exactly when the external formatting
mechanism reports a formatting error among the rendered pieces, propagated
verbatim; the device layer's own string-write step always reports
success. -/
theorem write_fmt_fails_iff_formatting_fails (h : QEMUOutput)
    (args : List FmtPiece) :
    ((h.write_fmt args).1 = Except.error () ↔ Except.error () ∈ args) ∧
    ∀ (st : QEMUOutputInner) (s : RStr),
      (st.write_str s).1 = Except.ok () := by
  constructor
  · exact write_fmt_error_iff_aux args h.inner.data
  · intro st s
    rfl

/-- Claim C7: writing the empty string is an identity on the observable
state — the handle (hence the counter) is unchanged, the write succeeds,
and no hardware emission is performed. -/
theorem write_empty_is_identity (h : QEMUOutput)
    (hlt : h.inner.data.chars_written < USIZE_MOD) :
    h.write_fmt [Except.ok []] = (Except.ok (), h, []) := by
  obtain ⟨⟨⟨c⟩⟩⟩ := h
  simp only [QEMUOutput.write_fmt, NullLock.lock, QEMUOutputInner.write_fmt,
    QEMUOutputInner.write_str, writeStrEmits, strByteLen] at *
  simp [Nat.mod_eq_of_lt hlt]

/-- Witness for the C7 theorem at the freshly constructed handle. -/
theorem write_empty_is_identity_witness :
    QEMUOutput.new.write_fmt [Except.ok []] = (Except.ok (), QEMUOutput.new, []) :=
  write_empty_is_identity QEMUOutput.new (by decide)

/-- Claim C8: the statistics query is pure — it returns the current counter
value, leaves the handle (and every field of the inner state) unchanged,
and performs no hardware emission. -/
theorem chars_written_query_pure (h : QEMUOutput) :
    h.chars_written = (h.inner.data.chars_written, h, []) := rfl

/-- Claim C9: a single string write increases the counter by the UTF-8 byte
length of the input (reduced modulo the word size), which strictly exceeds
the character count whenever some character lies outside the ASCII range;
the number of hardware emissions is the character count plus the newline
count. -/
theorem write_str_counts_bytes_not_chars (st : QEMUOutputInner) (s : RStr)
    (h : ∃ c ∈ s, 0x80 ≤ c) :
    s.length < strByteLen s ∧
    (st.write_str s).2.1.chars_written
      = (st.chars_written + strByteLen s) % USIZE_MOD ∧
    ((st.write_str s).2.2).length = s.length + countNewlines s := by
  refine ⟨length_lt_strByteLen s h, ?_, ?_⟩
  · rw [write_str_counter]
  · rw [write_str_emits, emitSeq_length]

/-- Witness for the C9 theorem at a concrete non-ASCII input. -/
theorem write_str_counts_bytes_not_chars_witness :
    ([233] : RStr).length < strByteLen [233] ∧
    ((QEMUOutputInner.mk 0).write_str [233]).2.1.chars_written
      = ((QEMUOutputInner.mk 0).chars_written + strByteLen [233]) % USIZE_MOD ∧
    (((QEMUOutputInner.mk 0).write_str [233]).2.2).length
      = ([233] : RStr).length + countNewlines [233] :=
  write_str_counts_bytes_not_chars ⟨0⟩ [233] (by decide)

/-- Claim C10: the write path is deterministic — equal starting counter
values and equal input strings yield identical results: same final counter,
same emitted bytes in the same order. -/
theorem write_str_deterministic (st1 st2 : QEMUOutputInner) (s1 s2 : RStr)
    (h1 : st1.chars_written = st2.chars_written) (h2 : s1 = s2) :
    st1.write_str s1 = st2.write_str s2 := by
  subst h2
  obtain ⟨c1⟩ := st1
  obtain ⟨c2⟩ := st2
  have h : c1 = c2 := h1
  subst h
  rfl

/-- Witness for the C10 theorem at a concrete state and input. -/
theorem write_str_deterministic_witness :
    QEMUOutputInner.write_str ⟨0⟩ [97] = QEMUOutputInner.write_str ⟨0⟩ [97] :=
  write_str_deterministic ⟨0⟩ ⟨0⟩ [97] [97] rfl rfl
